import Mathlib

/-
Verification of the payment reconciliation engine of the feeClubMark2
repository against its natural-language specification.

The embedding models:
  * the per-tenant configuration vault
    (migration part_003: encrypt_config_value / decrypt_config_value /
     get_school_config),
  * the atomic stored procedure
    (supabase/migrations/20250904000007_add_payment_processing_function.sql:
     process_payment_webhook),
  * the Deno edge function
    (fee-manage-pro/supabase/functions/razorpay-verify/index.ts:
     verifyWebhookSignature, handleWebhook, handleDirectVerification).

Monetary NUMERIC(10,2) values are modelled as rationals, TEXT identifiers as
strings, and the byte payloads handled by the vault as lists of naturals
below 256.  Each database access of the handler runs in its own transaction
(PostgREST issues one statement per HTTP call); the stored procedure runs in
a single transaction, so it is modelled as a pure all-or-nothing state
transition.
-/

/-! ### Data model (tables from the schema migrations) -/

/-- Row of `public.student_fees` (the FeeRecord of the spec). -/
structure StudentFee where
  id : String
  school_id : String
  total_due : ℚ
  amount_paid : ℚ
  status : String
deriving DecidableEq

/-- Row of `public.payment_intents`. -/
structure PaymentIntent where
  id : String
  razorpay_order_id : String
  student_fee_id : String
  school_id : String
  amount : ℚ
  status : String
  razorpay_payment_id : Option String
  webhook_verified : Bool
deriving DecidableEq

/-- Row of `public.payments` (the PaymentRecord of the spec). -/
structure Payment where
  id : String
  student_fee_id : String
  school_id : String
  transaction_id : String
  razorpay_order_id : Option String
  amount : ℚ
  payment_method : String
  is_webhook_verified : Bool
deriving DecidableEq

/-- Row of `public.webhook_logs` (the WebhookLogEntry of the spec). -/
structure WebhookLog where
  id : String
  school_id : Option String
  webhook_event : String
  razorpay_signature : Option String
  signature_valid : Option Bool
  processing_status : String
  error_message : Option String
deriving DecidableEq

/-- Row of `public.school_configurations`.  The stored TEXT value is kept as
its byte sequence so that the base64 envelope of the vault can be modelled
exactly. -/
structure SchoolConfig where
  school_id : String
  config_key : String
  config_value : List Nat
deriving DecidableEq

/-- The backing store: the five tables the reconciliation engine touches. -/
structure DB where
  student_fees : List StudentFee
  payment_intents : List PaymentIntent
  payments : List Payment
  webhook_logs : List WebhookLog
  school_configurations : List SchoolConfig
deriving DecidableEq

/-! ### Credential vault (migration `part_003`)

`encrypt_config_value` stores `'ENCRYPTED:' || encode(value::bytea,'base64')`;
`decrypt_config_value` strips the marker and base64-decodes, and returns any
unmarked value verbatim.  Postgres' `encode(...,'base64')` line-wraps long
output, and `decode` skips that whitespace again, so the unwrapped base64
below preserves the observable round-trip behaviour. -/

/-- Ascii code of the base64 character for a sextet (alphabet `A-Za-z0-9+/`). -/
def sextetToAscii (n : Nat) : Nat :=
  if n < 26 then 65 + n
  else if n < 52 then 97 + (n - 26)
  else if n < 62 then 48 + (n - 52)
  else if n = 62 then 43
  else 47

/-- Sextet value of a base64 character given by its ascii code. -/
def asciiToSextet (c : Nat) : Nat :=
  if 65 ≤ c ∧ c ≤ 90 then c - 65
  else if 97 ≤ c ∧ c ≤ 122 then c - 97 + 26
  else if 48 ≤ c ∧ c ≤ 57 then c - 48 + 52
  else if c = 43 then 62
  else 63

/-- Base64 encoding of a byte sequence, producing the ascii codes of the
encoded text; 61 is the pad character `=`. -/
def b64Encode : List Nat → List Nat
  | b1 :: b2 :: b3 :: rest =>
      sextetToAscii (b1 / 4) :: sextetToAscii (b1 % 4 * 16 + b2 / 16) ::
      sextetToAscii (b2 % 16 * 4 + b3 / 64) :: sextetToAscii (b3 % 64) ::
      b64Encode rest
  | [b1, b2] =>
      [sextetToAscii (b1 / 4), sextetToAscii (b1 % 4 * 16 + b2 / 16),
       sextetToAscii (b2 % 16 * 4), 61]
  | [b1] =>
      [sextetToAscii (b1 / 4), sextetToAscii (b1 % 4 * 16), 61, 61]
  | [] => []

/-- Base64 decoding of the ascii codes of an encoded text. -/
def b64Decode : List Nat → List Nat
  | c1 :: c2 :: c3 :: c4 :: rest =>
      let s1 := asciiToSextet c1
      let s2 := asciiToSextet c2
      if c3 = 61 then [s1 * 4 + s2 / 16]
      else
        let s3 := asciiToSextet c3
        if c4 = 61 then [s1 * 4 + s2 / 16, s2 % 16 * 16 + s3 / 4]
        else (s1 * 4 + s2 / 16) :: (s2 % 16 * 16 + s3 / 4) ::
             (s3 % 4 * 64 + asciiToSextet c4) :: b64Decode rest
  | _ => []

/-- Byte sequence of the marker text `ENCRYPTED:`. -/
def encMarker : List Nat := [69, 78, 67, 82, 89, 80, 84, 69, 68, 58]

/-- `encrypt_config_value` from migration part_003: prepend the marker to the
base64 encoding of the value. -/
def encrypt_config_value (config_value : List Nat) : List Nat :=
  encMarker ++ b64Encode config_value

/-- `decrypt_config_value` from migration part_003: when the value carries
the `ENCRYPTED:` marker (`LIKE 'ENCRYPTED:%'`), base64-decode everything
after it (`substring(... from 11)`); otherwise return the value verbatim. -/
def decrypt_config_value (encrypted_value : List Nat) : List Nat :=
  if encMarker.isPrefixOf encrypted_value then b64Decode (encrypted_value.drop 10)
  else encrypted_value

/-- Key names whose stored values the vault decrypts on read. -/
def isSensitiveKey (k : String) : Bool :=
  k == "razorpay_key_secret" || k == "razorpay_webhook_secret"

/-- `get_school_config` from migration part_003: look up the tenant's row for
the key and decrypt it when the key is sensitive.  The `auth.role()`
service-role gate is satisfied by the edge function's admin client and is not
modelled; a missing row leaves the plpgsql variable NULL, modelled as
`none`. -/
def get_school_config (db : DB) (target_school_id : String)
    (config_key_name : String) : Option (List Nat) :=
  match db.school_configurations.find?
      (fun sc => sc.school_id == target_school_id &&
                 sc.config_key == config_key_name) with
  | none => none
  | some sc =>
      some (if isSensitiveKey sc.config_key
            then decrypt_config_value sc.config_value
            else sc.config_value)

/-! ### Base64 round-trip lemmas -/

theorem asciiToSextet_sextetToAscii {s : Nat} (h : s < 64) :
    asciiToSextet (sextetToAscii s) = s := by
  revert h; revert s; decide

theorem sextetToAscii_ne_pad {s : Nat} (h : s < 64) : sextetToAscii s ≠ 61 := by
  revert h; revert s; decide

theorem b64Decode_b64Encode (l : List Nat) (h : ∀ b ∈ l, b < 256) :
    b64Decode (b64Encode l) = l := by
  match l with
  | [] => rfl
  | [b1] =>
      have hb1 : b1 < 256 := h b1 (by simp)
      have h1 : b1 / 4 < 64 := by omega
      have h2 : b1 % 4 * 16 < 64 := by omega
      simp only [b64Encode, b64Decode, if_pos rfl,
        asciiToSextet_sextetToAscii h1, asciiToSextet_sextetToAscii h2,
        if_true, List.cons.injEq, and_true]
      omega
  | [b1, b2] =>
      have hb1 : b1 < 256 := h b1 (by simp)
      have hb2 : b2 < 256 := h b2 (by simp)
      have h1 : b1 / 4 < 64 := by omega
      have h2 : b1 % 4 * 16 + b2 / 16 < 64 := by omega
      have h3 : b2 % 16 * 4 < 64 := by omega
      simp only [b64Encode, b64Decode, if_neg (sextetToAscii_ne_pad h3),
        if_pos rfl, asciiToSextet_sextetToAscii h1,
        asciiToSextet_sextetToAscii h2, asciiToSextet_sextetToAscii h3,
        if_true, List.cons.injEq, and_true]
      omega
  | b1 :: b2 :: b3 :: rest =>
      have hb1 : b1 < 256 := h b1 (by simp)
      have hb2 : b2 < 256 := h b2 (by simp)
      have hb3 : b3 < 256 := h b3 (by simp)
      have hrest : ∀ b ∈ rest, b < 256 := fun b hb => h b (by simp [hb])
      have h1 : b1 / 4 < 64 := by omega
      have h2 : b1 % 4 * 16 + b2 / 16 < 64 := by omega
      have h3 : b2 % 16 * 4 + b3 / 64 < 64 := by omega
      have h4 : b3 % 64 < 64 := by omega
      have ih := b64Decode_b64Encode rest hrest
      simp only [b64Encode, b64Decode, if_neg (sextetToAscii_ne_pad h3),
        if_neg (sextetToAscii_ne_pad h4), asciiToSextet_sextetToAscii h1,
        asciiToSextet_sextetToAscii h2, asciiToSextet_sextetToAscii h3,
        asciiToSextet_sextetToAscii h4, ih, List.cons.injEq, and_true]
      omega

theorem decrypt_encrypt_eq (v : List Nat) (h : ∀ b ∈ v, b < 256) :
    decrypt_config_value (encrypt_config_value v) = v := by
  unfold decrypt_config_value encrypt_config_value
  rw [if_pos (List.isPrefixOf_iff_prefix.mpr (List.prefix_append _ _))]
  have hdrop : (encMarker ++ b64Encode v).drop 10 = b64Encode v := by
    simp [encMarker]
  rw [hdrop, b64Decode_b64Encode v h]

/-! ### IEEE-754 binary64 rounding and the paise conversion

`handleWebhook` passes `payment.amount / 100` to the stored procedure.  The
division is performed on JavaScript numbers, i.e. IEEE-754 binary64 with
round-to-nearest, ties-to-even.  The rounding is modelled on exact rationals:
a positive quotient is scaled into a 53-bit significand and rounded; exponent
range limits never matter for monetary amounts. -/

/-- Round a rational to the nearest integer, ties to even. -/
def rne (x : ℚ) : ℤ :=
  let f := ⌊x⌋
  let frac := x - f
  if frac < 1/2 then f
  else if frac > 1/2 then f + 1
  else if f % 2 = 0 then f else f + 1

/-- Round a nonnegative rational to the nearest IEEE-754 binary64 value
(53-bit significand, round-to-nearest ties-to-even). -/
def float64Round (q : ℚ) : ℚ :=
  if q = 0 then 0
  else
    let e : ℤ := Int.log 2 q
    let scale : ℚ := 2 ^ ((52 : ℤ) - e)
    (rne (q * scale) : ℚ) / scale

/-- The paise-to-rupees conversion at the `process_payment_webhook` call of
`handleWebhook`: `p_amount_paid: payment.amount / 100`, a binary64
division. -/
def jsDiv100 (amount : Nat) : ℚ :=
  float64Round ((amount : ℚ) / 100)

/-! ### Signature verifier (`razorpay-verify/index.ts`) -/

/-- JavaScript `b.toString(16)`: lowercase hexadecimal digits. -/
def natToHex (n : Nat) : String :=
  String.mk (Nat.toDigits 16 n)

/-- `b.toString(16).padStart(2, '0')` applied to one digest byte. -/
def hexByte (b : Nat) : String :=
  let s := natToHex b
  if s.length < 2 then "0" ++ s else s

/-- `Array.from(new Uint8Array(buf)).map(b => ...).join('')`. -/
def bytesToHex (bs : List Nat) : String :=
  String.join (bs.map hexByte)

/-- An HMAC-SHA256 implementation: from secret bytes and a message to the
digest bytes; `none` models the WebCrypto call throwing.  The primitive
itself is the runtime's, so the embedding abstracts over it. -/
def HmacFn : Type := List Nat → String → Option (List Nat)

/-- `verifyWebhookSignature` from `razorpay-verify/index.ts`: HMAC-SHA256 the
payload with the secret, hex-encode the digest and compare it with the
presented signature; the surrounding try/catch returns `false` on any
error.  The function is total: it never throws. -/
def verifyWebhookSignature (hmacSha256 : HmacFn) (payload : String)
    (signature : String) (secret : List Nat) : Bool :=
  match hmacSha256 secret payload with
  | none => false
  | some digest => bytesToHex digest == signature

/-! ### Atomic stored procedure (`process_payment_webhook`)

The plpgsql function runs inside the single transaction of its PostgREST
call.  Any `RAISE` aborts that transaction: the `EXCEPTION WHEN OTHERS`
handler rolls back to the block's savepoint, inserts a failure row into
`webhook_logs` and then re-raises, which aborts the whole call and rolls
that insert back as well.  A failed call therefore leaves the store exactly
as it was, which the `Except` result encodes. -/

/-- Update of `student_fees` by primary key. -/
def updateFeeRows (fees : List StudentFee) (fid : String) (newPaid : ℚ)
    (newStatus : String) : List StudentFee :=
  fees.map (fun f => if f.id == fid
    then { f with amount_paid := newPaid, status := newStatus } else f)

/-- Update of `payment_intents` by primary key (`status = 'paid'`, payment
reference, `webhook_verified = TRUE`). -/
def markIntentPaid (intents : List PaymentIntent) (iid : String)
    (payRef : String) : List PaymentIntent :=
  intents.map (fun i => if i.id == iid
    then { i with status := "paid", razorpay_payment_id := some payRef,
                  webhook_verified := true } else i)

/-- `process_payment_webhook` from migration 20250904000007.  `newPaymentId`
stands for the `gen_random_uuid()` primary key of the inserted payment (the
function returns it).  The `auth.role()` service-role gate is satisfied by
the admin client and is not modelled. -/
def process_payment_webhook (db : DB) (newPaymentId : String)
    (p_payment_intent_id p_razorpay_payment_id : String) (p_amount_paid : ℚ)
    (p_school_id : String) : Except String (DB × String) :=
  match db.payment_intents.find?
      (fun i => i.id == p_payment_intent_id && i.school_id == p_school_id) with
  | none => .error "Payment intent not found or access denied"
  | some intent =>
    let v_student_fee_id := intent.student_fee_id
    match db.payments.find?
        (fun pm => pm.transaction_id == p_razorpay_payment_id) with
    | some _ => .error ("Payment already processed: " ++ p_razorpay_payment_id)
    | none =>
      -- SELECT ... FROM student_fees ... FOR UPDATE: the row lock makes the
      -- read-modify-write below exclusive for the transaction's duration.
      match db.student_fees.find?
          (fun f => f.id == v_student_fee_id && f.school_id == p_school_id) with
      | none => .error "Student fee not found or access denied"
      | some fee =>
        let v_new_amount_paid := fee.amount_paid + p_amount_paid
        let v_new_status :=
          if fee.total_due ≤ v_new_amount_paid then "paid"
          else if 0 < v_new_amount_paid then "partially_paid"
          else "unpaid"
        let newPayment : Payment :=
          { id := newPaymentId
            student_fee_id := v_student_fee_id
            school_id := p_school_id
            transaction_id := p_razorpay_payment_id
            razorpay_order_id :=
              (db.payment_intents.find?
                (fun i => i.id == p_payment_intent_id)).map
                (fun i => i.razorpay_order_id)
            amount := p_amount_paid
            payment_method := "Online"
            is_webhook_verified := true }
        let successLog : WebhookLog :=
          { id := newPaymentId ++ ":log"
            school_id := some p_school_id
            webhook_event := "payment.captured"
            razorpay_signature := none
            signature_valid := some true
            processing_status := "processed"
            error_message := none }
        .ok ({ db with
                payments := db.payments ++ [newPayment]
                student_fees :=
                  updateFeeRows db.student_fees v_student_fee_id
                    v_new_amount_paid v_new_status
                payment_intents :=
                  markIntentPaid db.payment_intents p_payment_intent_id
                    p_razorpay_payment_id
                webhook_logs := db.webhook_logs ++ [successLog] },
             newPaymentId)

/-! ### The webhook handler (`handleWebhook` in `razorpay-verify/index.ts`) -/

/-- The fields of `payload.payment.entity` the handler reads.  `amount` is
the captured amount in minor units, an integer in the gateway's JSON. -/
structure PaymentEntity where
  id : String
  amount : Nat
  order_id : String
deriving DecidableEq

/-- The parsed webhook body: the event name and, when present,
`payload.payment.entity`. -/
structure WebhookPayload where
  event : String
  payment : Option PaymentEntity
deriving DecidableEq

/-- An inbound webhook request: the raw unparsed body and the
`x-razorpay-signature` header. -/
structure WebhookRequest where
  rawBody : String
  signature : Option String
deriving DecidableEq

/-- `JSON.parse` is the runtime's; the embedding abstracts over it.  `none`
models a parse error (the exception lands in the handler's catch). -/
def ParseFn : Type := String → Option WebhookPayload

/-- HTTP responses produced through `successResponse` / `errorResponse` of
`_shared/cors.ts` (`errorResponse` defaults to status 400). -/
inductive HttpResponse
  | success (message : String)
  | failure (message : String) (status : Nat)
deriving DecidableEq

/-- Externally visible effects of a handler run, in execution order: payment
intent lookups, vault reads (`get_school_config`), signature verifications
and calls of the atomic procedure. -/
inductive Event
  | intentLookup (orderId : String)
  | vaultGet (schoolId : String) (key : String)
  | verify (payload : String) (signature : String) (secret : List Nat)
  | rpcProcess (intentId : String) (paymentId : String) (amount : ℚ)
      (schoolId : String)
deriving DecidableEq

/-- `.eq('razorpay_order_id', ...).single()`: `razorpay_order_id` is UNIQUE,
so at most one row matches. -/
def findIntentByOrder (db : DB) (orderId : String) : Option PaymentIntent :=
  db.payment_intents.find? (fun i => i.razorpay_order_id == orderId)

/-- Append one `webhook_logs` row (its own PostgREST call, hence its own
transaction). -/
def insertLog (db : DB) (lg : WebhookLog) : DB :=
  { db with webhook_logs := db.webhook_logs ++ [lg] }

/-- `update({ processing_status }).eq('id', logId)`. -/
def setLogStatus (db : DB) (logId : String) (st : String) : DB :=
  { db with webhook_logs := List.map
              (fun lg => if lg.id == logId
                then { lg with processing_status := st } else lg)
              db.webhook_logs }

/-- `update({ processing_status, error_message }).eq('id', logId)`. -/
def setLogFailure (db : DB) (logId : String) (msg : String) : DB :=
  { db with webhook_logs := List.map
              (fun lg => if lg.id == logId
                then { lg with processing_status := "failed",
                               error_message := some msg }
                else lg)
              db.webhook_logs }

/-- Lines 254-308 of `handleWebhook`: the continuation that runs after the
idempotency lookup on `payments` found nothing — re-resolve the intent by
the payment's order id, call the atomic procedure, and translate its result
into log updates and a response.  It acts on the store as it stands when it
runs, which in a race is no longer the store the idempotency lookup saw. -/
def processCapture (newPaymentId webhookLogId : String)
    (payment : PaymentEntity) (schoolId : String) (db : DB) :
    DB × HttpResponse × List Event :=
  match findIntentByOrder db payment.order_id with
  | none =>
      (setLogFailure db webhookLogId "Payment intent not found",
       .failure "Payment intent not found" 400,
       [.intentLookup payment.order_id])
  | some fullIntentData =>
      match process_payment_webhook db newPaymentId fullIntentData.id
          payment.id (jsDiv100 payment.amount) schoolId with
      | .error msg =>
          (setLogFailure db webhookLogId ("Transaction failed: " ++ msg),
           .failure "Payment processing failed" 500,
           [.intentLookup payment.order_id,
            .rpcProcess fullIntentData.id payment.id (jsDiv100 payment.amount)
              schoolId])
      | .ok (db', _) =>
          (setLogStatus db' webhookLogId "processed",
           .success "Payment processed successfully",
           [.intentLookup payment.order_id,
            .rpcProcess fullIntentData.id payment.id (jsDiv100 payment.amount)
              schoolId])

/-- `handleWebhook` from `razorpay-verify/index.ts`.  `webhookLogId` stands
for `crypto.randomUUID()` (also reused for the id the store generates for
the failure row of the missing-secret branch), `newPaymentId` for the id
generated inside the stored procedure.

Control flow notes, matching the source:
  * a `JSON.parse` failure is caught by the handler's catch block (500);
  * `orderId` is only extracted for `payment.captured` events carrying
    `payload.payment.entity`, so every run that passes this point has the
    payment entity in hand and later `event === 'payment.captured'` tests
    are true (the `'Webhook received'` branch is unreachable);
  * the `webhook_logs` row is only inserted after the intent has been
    resolved and the secret fetched. -/
def handleWebhook (parse : ParseFn) (hmacSha256 : HmacFn)
    (webhookLogId newPaymentId : String) (req : WebhookRequest) (db : DB) :
    DB × HttpResponse × List Event :=
  match parse req.rawBody with
  | none => (db, .failure "Webhook processing failed" 500, [])
  | some webhookPayload =>
    match req.signature with
    | none => (db, .failure "Missing webhook signature" 400, [])
    | some signature =>
      match (if webhookPayload.event == "payment.captured"
             then webhookPayload.payment else none) with
      | none => (db, .failure "Invalid webhook payload" 400, [])
      | some payment =>
        match findIntentByOrder db payment.order_id with
        | none =>
            (db, .failure "Payment intent not found" 400,
             [.intentLookup payment.order_id])
        | some intentData =>
          let schoolId := intentData.school_id
          match get_school_config db schoolId "razorpay_webhook_secret" with
          | none =>
              (insertLog db
                { id := webhookLogId
                  school_id := some schoolId
                  webhook_event := webhookPayload.event
                  razorpay_signature := some signature
                  signature_valid := some false
                  processing_status := "failed"
                  error_message := some "Webhook secret not found" },
               .failure "Webhook secret configuration error" 500,
               [.intentLookup payment.order_id,
                .vaultGet schoolId "razorpay_webhook_secret"])
          | some webhookSecret =>
            let isValidSignature :=
              verifyWebhookSignature hmacSha256 req.rawBody signature
                webhookSecret
            let db2 := insertLog db
              { id := webhookLogId
                school_id := some schoolId
                webhook_event := webhookPayload.event
                razorpay_signature := some signature
                signature_valid := some isValidSignature
                processing_status := "received"
                error_message := none }
            let tr : List Event :=
              [.intentLookup payment.order_id,
               .vaultGet schoolId "razorpay_webhook_secret",
               .verify req.rawBody signature webhookSecret]
            if isValidSignature = false then
              (setLogFailure db2 webhookLogId "Invalid webhook signature",
               .failure "Invalid webhook signature" 400, tr)
            else
              match db2.payments.find?
                  (fun pm => pm.transaction_id == payment.id) with
              | some _ =>
                  (setLogStatus db2 webhookLogId "processed",
                   .success "Payment already processed", tr)
              | none =>
                  let r := processCapture newPaymentId webhookLogId payment
                    schoolId db2
                  (r.1, r.2.1, tr ++ r.2.2)

/-! ### The direct verification path (`handleDirectVerification`) -/

/-- Body of a direct (non-webhook) verification request; `none` models an
absent (falsy) field. -/
structure VerifyPaymentRequest where
  razorpayOrderId : Option String
  razorpayPaymentId : Option String
  razorpaySignature : Option String
deriving DecidableEq

/-- `requiredFields.filter(field => !requestData[field])`. -/
def missingFieldNames (req : VerifyPaymentRequest) : List String :=
  (if req.razorpayOrderId.isNone then ["razorpayOrderId"] else []) ++
  (if req.razorpayPaymentId.isNone then ["razorpayPaymentId"] else []) ++
  (if req.razorpaySignature.isNone then ["razorpaySignature"] else [])

/-- `handleDirectVerification` from `razorpay-verify/index.ts`.  After field
validation it resolves the intent together with its school's configuration
rows, reads the raw `razorpay_key_secret` row (without decryption) and then
calls `verifyRazorpaySignature` — a function defined nowhere in the module.
That call throws a `ReferenceError`, the surrounding try/catch turns it into
a 500 error response, and none of the inline ledger writes further down the
source are ever reached. -/
def handleDirectVerification (req : VerifyPaymentRequest) (db : DB) :
    DB × HttpResponse :=
  match req.razorpayOrderId, req.razorpayPaymentId, req.razorpaySignature with
  | some orderId, some _paymentId, some _signature =>
      match findIntentByOrder db orderId with
      | none => (db, .failure "Payment intent not found" 400)
      | some intentData =>
          let configs := db.school_configurations.filter
            (fun sc => sc.school_id == intentData.school_id)
          match configs.find?
              (fun c => c.config_key == "razorpay_key_secret") with
          | none => (db, .failure "Razorpay configuration not found" 400)
          | some _config =>
              (db, .failure
                "Payment verification failed: verifyRazorpaySignature is not defined"
                500)
  | _, _, _ =>
      (db, .failure ("Missing required fields: " ++
        String.intercalate ", " (missingFieldNames req)) 400)

/-! ### Sequential redelivery -/

/-- `n` sequential deliveries of the same notification; `ids n` supplies the
fresh log and payment ids of delivery `n`. -/
def deliverN (parse : ParseFn) (hmacSha256 : HmacFn)
    (ids : Nat → String × String) (req : WebhookRequest) (db : DB) :
    Nat → DB
  | 0 => db
  | n + 1 =>
      (handleWebhook parse hmacSha256 (ids n).1 (ids n).2 req
        (deliverN parse hmacSha256 ids req db n)).1

/-- The response of delivery `n` (0-based) in the sequence. -/
def deliveryResponse (parse : ParseFn) (hmacSha256 : HmacFn)
    (ids : Nat → String × String) (req : WebhookRequest) (db : DB)
    (n : Nat) : HttpResponse :=
  (handleWebhook parse hmacSha256 (ids n).1 (ids n).2 req
    (deliverN parse hmacSha256 ids req db n)).2.1


/-! ### Concrete sample world used to evaluate the model -/

/-- Sample fee record: 82000 due, nothing paid. -/
def feeW : StudentFee :=
  { id := "fee1", school_id := "school1", total_due := 82000,
    amount_paid := 0, status := "unpaid" }

/-- Sample payment intent for order `order_A` against `feeW`. -/
def intentW : PaymentIntent :=
  { id := "intent1", razorpay_order_id := "order_A",
    student_fee_id := "fee1", school_id := "school1", amount := 40000,
    status := "created", razorpay_payment_id := none,
    webhook_verified := false }

/-- Sample webhook secret (the bytes of `s1`). -/
def secretW : List Nat := [115, 49]

/-- Sample configuration row holding the webhook secret stored without the
encryption marker (the vault returns such values verbatim). -/
def configW : SchoolConfig :=
  { school_id := "school1", config_key := "razorpay_webhook_secret",
    config_value := secretW }

/-- Sample configuration row holding the gateway key secret the direct
verification path reads (raw, without decryption). -/
def configK : SchoolConfig :=
  { school_id := "school1", config_key := "razorpay_key_secret",
    config_value := [107] }

/-- Sample store: one school, one fee, one intent, no payments yet. -/
def dbW : DB :=
  { student_fees := [feeW], payment_intents := [intentW], payments := [],
    webhook_logs := [], school_configurations := [configW, configK] }

/-- Sample captured-payment entity: 4000000 paise against `order_A`. -/
def payW : PaymentEntity :=
  { id := "pay_A", amount := 4000000, order_id := "order_A" }

/-- Sample parser: recognises the three raw bodies used in the tests — a
valid capture, a malformed notification without an extractable order id, and
a capture referencing an unknown order. -/
def parseW : ParseFn := fun s =>
  if s == "body_A" then
    some { event := "payment.captured", payment := some payW }
  else if s == "body_M" then
    some { event := "payment.failed", payment := none }
  else if s == "body_N" then
    some { event := "payment.captured",
           payment := some { id := "pay_N", amount := 100,
                             order_id := "order_MISSING" } }
  else none

/-- Sample HMAC returning the one-byte digest `0x00` (hex `00`). -/
def hmacW : HmacFn := fun _ _ => some [0]

/-- Sample HMAC returning the one-byte digest `0x01` (hex `01`), which does
not match the presented signature `00`. -/
def hmacBad : HmacFn := fun _ _ => some [1]

/-- Sample valid capture notification, signed with hex digest `00`. -/
def reqW : WebhookRequest := { rawBody := "body_A", signature := some "00" }

/-- Sample capture notification referencing a nonexistent order. -/
def reqN : WebhookRequest := { rawBody := "body_N", signature := some "00" }

/-- Sample malformed notification (no extractable order reference). -/
def reqM : WebhookRequest := { rawBody := "body_M", signature := some "00" }

/-! ### Claim C10 — the encryption envelope round-trips -/

/-- C10: `decrypt_config_value (encrypt_config_value v) = v` for every text
value (byte sequence), any value without the `ENCRYPTED:` marker is returned
verbatim, and `get_school_config` therefore yields the originally stored
plaintext of a sensitive key whether the stored value was encrypted or
not. -/
theorem C10_config_envelope_roundtrip :
    (∀ v : List Nat, (∀ b ∈ v, b < 256) →
      decrypt_config_value (encrypt_config_value v) = v) ∧
    (∀ e : List Nat, encMarker.isPrefixOf e = false →
      decrypt_config_value e = e) ∧
    (∀ (db : DB) (sid key : String) (sc : SchoolConfig) (v : List Nat),
      isSensitiveKey key = true → (∀ b ∈ v, b < 256) →
      db.school_configurations.find?
        (fun c => c.school_id == sid && c.config_key == key) = some sc →
      (sc.config_value = encrypt_config_value v ∨
        (sc.config_value = v ∧ encMarker.isPrefixOf v = false)) →
      get_school_config db sid key = some v) := by
  refine ⟨decrypt_encrypt_eq, ?_, ?_⟩
  · intro e he
    unfold decrypt_config_value
    rw [he]
    simp
  · intro db sid key sc v hkey hv hfind hstored
    have hpred := List.find?_some hfind
    have hkeq : sc.config_key = key := by
      have := (Bool.and_eq_true _ _).mp hpred
      exact eq_of_beq this.2
    unfold get_school_config
    rw [hfind]
    have hsens : isSensitiveKey sc.config_key = true := by rw [hkeq]; exact hkey
    simp only [hsens, if_true]
    rcases hstored with h | ⟨h1, h2⟩
    · rw [h, decrypt_encrypt_eq v hv]
    · rw [h1]
      unfold decrypt_config_value
      rw [h2]
      simp

/-- Witness for C10 at a concrete stored value. -/
theorem C10_config_envelope_roundtrip_witness :
    decrypt_config_value (encrypt_config_value [104, 105]) = [104, 105] ∧
    decrypt_config_value [104] = [104] ∧
    get_school_config
      { student_fees := [], payment_intents := [], payments := [],
        webhook_logs := [],
        school_configurations :=
          [{ school_id := "school1", config_key := "razorpay_webhook_secret",
             config_value := encrypt_config_value [104, 105] }] }
      "school1" "razorpay_webhook_secret" = some [104, 105] := by
  refine ⟨C10_config_envelope_roundtrip.1 _ (by decide),
          C10_config_envelope_roundtrip.2.1 _ (by decide),
          C10_config_envelope_roundtrip.2.2 _ "school1"
            "razorpay_webhook_secret"
            { school_id := "school1", config_key := "razorpay_webhook_secret",
              config_value := encrypt_config_value [104, 105] }
            [104, 105] (by decide) (by decide) (by decide) (Or.inl rfl)⟩

/-! ### Claim C6 — fee status at the payment boundary -/

/-- C6: a single application of a captured amount `a` with
`0 < a ≤ total_due − amount_paid` writes the status demanded by the §3
invariant exactly at the boundary: `paid` when the new `amount_paid` reaches
`total_due`, `partially_paid` when it stays strictly below. -/
theorem C6_status_at_boundary (db : DB) (newPid iid txn sch : String)
    (a : ℚ) (intent : PaymentIntent) (fee : StudentFee)
    (hIntent : db.payment_intents.find?
      (fun i => i.id == iid && i.school_id == sch) = some intent)
    (hNoDup : db.payments.find?
      (fun pm => pm.transaction_id == txn) = none)
    (hFee : db.student_fees.find?
      (fun f => f.id == intent.student_fee_id && f.school_id == sch) = some fee)
    (hpaid0 : 0 ≤ fee.amount_paid)
    (hpos : 0 < a) (hle : a ≤ fee.total_due - fee.amount_paid) :
    ∃ db' pid,
      process_payment_webhook db newPid iid txn a sch = .ok (db', pid) ∧
      db'.student_fees =
        updateFeeRows db.student_fees intent.student_fee_id
          (fee.amount_paid + a)
          (if fee.amount_paid + a = fee.total_due then "paid"
           else "partially_paid") := by
  simp only [process_payment_webhook, hIntent, hNoDup, hFee]
  refine ⟨_, _, rfl, ?_⟩
  simp only
  congr 1
  by_cases h : fee.amount_paid + a = fee.total_due
  · rw [if_pos (le_of_eq h.symm), if_pos h]
  · have hlt : fee.amount_paid + a < fee.total_due := by
      have : fee.amount_paid + a ≤ fee.total_due := by linarith
      exact lt_of_le_of_ne this h
    rw [if_neg (not_le.mpr hlt), if_neg h, if_pos (by linarith)]

/-- Witness for C6: paying 40000 of the 82000 sample fee yields
`partially_paid` with `amount_paid = 40000`. -/
theorem C6_status_at_boundary_witness :
    ∃ db' pid,
      process_payment_webhook dbW "paymt1" "intent1" "pay_A" 40000 "school1" =
        .ok (db', pid) ∧
      db'.student_fees =
        [{ id := "fee1", school_id := "school1", total_due := 82000,
           amount_paid := 40000, status := "partially_paid" }] := by
  obtain ⟨db', pid, hok, hfees⟩ :=
    C6_status_at_boundary dbW "paymt1" "intent1" "pay_A" "school1" 40000
      intentW feeW (by decide) (by decide) (by decide) (by norm_num [feeW])
      (by norm_num) (by norm_num [feeW])
  refine ⟨db', pid, hok, ?_⟩
  rw [hfees]
  norm_num [updateFeeRows, dbW, feeW, intentW]

/-! ### Claim C9 — the paise conversion and binary64 rounding -/

theorem rne_intCast (z : ℤ) : rne (z : ℚ) = z := by
  unfold rne
  simp only [Int.floor_intCast, sub_self]
  norm_num

/-- A positive rational with a 53-bit numerator over a power of two is a
binary64 value, and rounding returns it unchanged. -/
theorem float64Round_eq_self (m k : ℕ) (hm0 : 0 < m) (hm : m < 2 ^ 53) :
    float64Round ((m : ℚ) / 2 ^ k) = (m : ℚ) / 2 ^ k := by
  set q : ℚ := (m : ℚ) / 2 ^ k with hq
  have hq0 : 0 < q := by positivity
  unfold float64Round
  rw [if_neg (ne_of_gt hq0)]
  set e : ℤ := Int.log 2 q with he
  have hqlt : q < (2 : ℚ) ^ ((53 : ℤ) - k) := by
    have hmlt : (m : ℚ) < 2 ^ 53 := by exact_mod_cast hm
    have hstep : q < (2 : ℚ) ^ 53 / 2 ^ k := by
      rw [hq]
      gcongr
    calc q < (2 : ℚ) ^ 53 / 2 ^ k := hstep
      _ = (2 : ℚ) ^ ((53 : ℤ) - k) := by
          rw [zpow_sub₀ (by norm_num : (2 : ℚ) ≠ 0)]
          norm_num [zpow_natCast]
  have helt : e < 53 - k := by
    rw [he]
    exact (Int.lt_zpow_iff_log_lt (by norm_num) hq0).mp hqlt
  obtain ⟨j, hjeq⟩ : ∃ j : ℕ, (52 : ℤ) - e = j + k :=
    ⟨((52 : ℤ) - e - k).toNat, by omega⟩
  have hscale : q * 2 ^ ((52 : ℤ) - e) = ((m * 2 ^ j : ℕ) : ℚ) := by
    rw [hjeq, zpow_add₀ (by norm_num : (2 : ℚ) ≠ 0), hq]
    push_cast
    field_simp
    ring
  show ((rne (q * 2 ^ ((52 : ℤ) - e)) : ℤ) : ℚ) / 2 ^ ((52 : ℤ) - e) = q
  rw [hscale]
  rw [show ((m * 2 ^ j : ℕ) : ℚ) = (((m * 2 ^ j : ℤ)) : ℚ) from by
    push_cast
    ring]
  rw [rne_intCast]
  rw [hjeq, zpow_add₀ (by norm_num : (2 : ℚ) ≠ 0), hq]
  push_cast
  field_simp
  ring

/-- Helper: the paise conversion is exact on multiples of 25 up to 10^12
(there the quotient is a binary64 value). -/
theorem jsDiv100_exact_of_dvd25 (n : ℕ) (h25 : 25 ∣ n) (hn0 : 0 < n)
    (hbound : n ≤ 10 ^ 12) : jsDiv100 n = (n : ℚ) / 100 := by
  obtain ⟨m, rfl⟩ := h25
  have hcast : ((25 * m : ℕ) : ℚ) / 100 = (m : ℚ) / 2 ^ 2 := by
    push_cast
    ring
  rw [jsDiv100, hcast, float64Round_eq_self m 2 (by omega) (by omega)]

/-- Helper: the scenario amount, 4000000 paise, converts to exactly 40000. -/
theorem jsDiv100_scenario : jsDiv100 4000000 = 40000 := by
  rw [jsDiv100_exact_of_dvd25 4000000 (by norm_num) (by norm_num) (by norm_num)]
  norm_num

/-- C9 counterexample: the conversion the handler performs is binary64
division, and at a captured amount of 1 paisa the converted value is
5764607523034235 / 2^59, not the exact 1/100 the claim demands. -/
theorem C9_conversion_not_exact_counterexample :
    jsDiv100 1 ≠ (1 : ℚ) / 100 := by
  have hpos : (0 : ℚ) < 1 / 100 := by norm_num
  have hlog : Int.log 2 ((1 : ℚ) / 100) = -7 := by
    have h1 : ((2 : ℕ) : ℚ) ^ (-7 : ℤ) ≤ (1 : ℚ) / 100 := by
      push_cast
      rw [zpow_neg]
      norm_num
    have h2 : (1 : ℚ) / 100 < ((2 : ℕ) : ℚ) ^ (-6 : ℤ) := by
      push_cast
      rw [zpow_neg]
      norm_num
    have hle := (Int.zpow_le_iff_le_log (by norm_num) hpos).mp h1
    have hlt := (Int.lt_zpow_iff_log_lt (by norm_num) hpos).mp h2
    omega
  have hscale : (1 : ℚ) / 100 * 2 ^ ((52 : ℤ) - (-7)) =
      (144115188075855872 : ℚ) / 25 := by
    norm_num
  have hfloor : ⌊((144115188075855872 : ℚ) / 25)⌋ = 5764607523034234 := by
    rw [Int.floor_eq_iff]
    constructor
    · norm_num
    · norm_num
  have hrne : rne ((144115188075855872 : ℚ) / 25) = 5764607523034235 := by
    unfold rne
    rw [hfloor]
    rw [if_neg (by push_cast; norm_num), if_pos (by push_cast; norm_num)]
    norm_num
  have hval : jsDiv100 1 = (5764607523034235 : ℚ) / 2 ^ ((52 : ℤ) - (-7)) := by
    unfold jsDiv100 float64Round
    rw [Nat.cast_one, if_neg (ne_of_gt hpos), hlog]
    show ((rne ((1 : ℚ) / 100 * 2 ^ ((52 : ℤ) - (-7))) : ℤ) : ℚ) /
        2 ^ ((52 : ℤ) - (-7)) = _
    rw [hscale, hrne]
    norm_num
  rw [hval]
  intro hcontra
  rw [show ((52 : ℤ) - (-7)) = 59 by norm_num] at hcontra
  rw [show ((2 : ℚ) ^ (59 : ℤ)) = 2 ^ (59 : ℕ) from zpow_natCast 2 59] at hcontra
  norm_num at hcontra

/-- C9 (amended): the conversion `payment.amount / 100` is IEEE-754 binary64
division; it is exact whenever the quotient is representable — in particular
for every captured amount that is a multiple of 25 paise up to 10^12 — but
not for arbitrary amounts. -/
theorem C9_conversion_exact_on_multiples_of_25 (n : ℕ) (h25 : 25 ∣ n)
    (hn0 : 0 < n) (hbound : n ≤ 10 ^ 12) :
    jsDiv100 n = (n : ℚ) / 100 :=
  jsDiv100_exact_of_dvd25 n h25 hn0 hbound

/-- Witness for the amended C9 at the scenario amount of 4000000 paise. -/
theorem C9_conversion_exact_on_multiples_of_25_witness :
    jsDiv100 4000000 = (4000000 : ℚ) / 100 :=
  C9_conversion_exact_on_multiples_of_25 4000000 (by norm_num) (by norm_num)
    (by norm_num)

/-! ### Claim C8 — the signature verifier -/

set_option maxRecDepth 4000 in
theorem hexByte_length {b : Nat} (h : b < 256) : (hexByte b).length = 2 := by
  revert h
  revert b
  decide

theorem join_length (l : List String) :
    (String.join l).length = (l.map String.length).sum := by
  have aux : ∀ (l : List String) (init : String),
      (l.foldl (fun r s => r ++ s) init).length =
        init.length + (l.map String.length).sum := by
    intro l
    induction l with
    | nil => intro init; simp
    | cons hd tl ih =>
        intro init
        simp only [List.foldl, List.map, List.sum_cons, ih,
          String.length_append]
        omega
  simpa using aux l ""

theorem bytesToHex_length (d : List Nat) (h : ∀ b ∈ d, b < 256) :
    (bytesToHex d).length = 2 * d.length := by
  unfold bytesToHex
  rw [join_length]
  induction d with
  | nil => simp
  | cons b rest ih =>
      have hb : b < 256 := h b (by simp)
      have hrest : ∀ x ∈ rest, x < 256 := fun x hx => h x (by simp [hx])
      simp only [List.map, List.sum_cons, List.length_cons,
        hexByte_length hb, ih hrest]
      omega

theorem processCapture_trace_no_vault_no_verify (pid lid : String)
    (pe : PaymentEntity) (sch : String) (db : DB) :
    (∀ s k, Event.vaultGet s k ∉ (processCapture pid lid pe sch db).2.2) ∧
    (∀ p s sec, Event.verify p s sec ∉ (processCapture pid lid pe sch db).2.2)
    := by
  unfold processCapture
  rcases hfind : findIntentByOrder db pe.order_id with _ | fi
  · simp [hfind]
  · rcases hrpc : process_payment_webhook db pid fi.id pe.id
        (jsDiv100 pe.amount) sch with msg | pr
    · simp [hfind, hrpc]
    · obtain ⟨db', pid'⟩ := pr
      simp [hfind, hrpc]

theorem verify_event_uses_rawBody (parse : ParseFn) (hmacSha256 : HmacFn)
    (lid pid : String) (req : WebhookRequest) (db : DB) (p s : String)
    (sec : List Nat)
    (hmem : Event.verify p s sec ∈
      (handleWebhook parse hmacSha256 lid pid req db).2.2) :
    p = req.rawBody := by
  unfold handleWebhook at hmem
  rcases hp : parse req.rawBody with _ | wp
  · simp only [hp] at hmem; simp at hmem
  · simp only [hp] at hmem
    rcases hs : req.signature with _ | sig
    · simp only [hs] at hmem; simp at hmem
    · simp only [hs] at hmem
      rcases hx : (if wp.event == "payment.captured" then wp.payment
          else none) with _ | payment
      · simp only [hx] at hmem; simp at hmem
      · simp only [hx] at hmem
        rcases hfind : findIntentByOrder db payment.order_id with _ | intent
        · simp only [hfind] at hmem; simp at hmem
        · simp only [hfind] at hmem
          rcases hsec : get_school_config db intent.school_id
              "razorpay_webhook_secret" with _ | webhookSecret
          · simp only [hsec] at hmem; simp at hmem
          · simp only [hsec] at hmem
            by_cases hv : verifyWebhookSignature hmacSha256 req.rawBody sig
                webhookSecret = false
            · rw [if_pos hv] at hmem
              simp at hmem
              exact hmem.1
            · rw [if_neg hv] at hmem
              rcases hdup : List.find?
                  (fun pm => pm.transaction_id == payment.id)
                  (insertLog db
                    { id := lid, school_id := some intent.school_id,
                      webhook_event := wp.event,
                      razorpay_signature := some sig,
                      signature_valid := some (verifyWebhookSignature
                        hmacSha256 req.rawBody sig webhookSecret),
                      processing_status := "received",
                      error_message := none }).payments with _ | pm
              · simp only [hdup] at hmem
                simp at hmem
                rcases hmem with hmem | hmem
                · exact hmem.1
                · exact absurd hmem
                    ((processCapture_trace_no_vault_no_verify _ _ _ _ _).2 p s
                      sec)
              · simp only [hdup] at hmem
                simp at hmem
                exact hmem.1

/-- C8: the verifier HMACs exactly the raw unparsed body the handler
received (every verification event carries `req.rawBody` itself, never a
re-serialization), hex-encodes the digest (two lowercase hex characters per
byte), compares the encoding with the presented signature, and returns
`false` rather than throwing whenever the underlying crypto call fails. -/
theorem C8_signature_verifier :
    (∀ (hmacSha256 : HmacFn) (payload signature : String) (secret : List Nat),
      hmacSha256 secret payload = none →
      verifyWebhookSignature hmacSha256 payload signature secret = false) ∧
    (∀ (hmacSha256 : HmacFn) (payload signature : String) (secret : List Nat)
      (digest : List Nat), hmacSha256 secret payload = some digest →
      (verifyWebhookSignature hmacSha256 payload signature secret = true ↔
        bytesToHex digest = signature)) ∧
    (∀ digest : List Nat, (∀ b ∈ digest, b < 256) →
      (bytesToHex digest).length = 2 * digest.length) ∧
    (∀ (parse : ParseFn) (hmacSha256 : HmacFn) (lid pid : String)
      (req : WebhookRequest) (db : DB) (p s : String) (sec : List Nat),
      Event.verify p s sec ∈
        (handleWebhook parse hmacSha256 lid pid req db).2.2 →
      p = req.rawBody) := by
  refine ⟨?_, ?_, bytesToHex_length, verify_event_uses_rawBody⟩
  · intro hmacSha256 payload signature secret h
    unfold verifyWebhookSignature
    rw [h]
  · intro hmacSha256 payload signature secret digest h
    unfold verifyWebhookSignature
    rw [h]
    simp [beq_iff_eq]

/-- Witness for C8: a failing crypto call yields `false`; the sample HMAC's
digest `[0]` hex-encodes to `00` and the comparison decides verification;
the encoding of `[0]` has two characters; and the verify event of a sample
run carries the raw request body. -/
theorem C8_signature_verifier_witness :
    verifyWebhookSignature (fun _ _ => none) "body_A" "00" secretW = false ∧
    (verifyWebhookSignature hmacW "body_A" "00" secretW = true ↔
      bytesToHex [0] = "00") ∧
    (bytesToHex [0]).length = 2 * ([0] : List Nat).length ∧
    "body_A" = reqW.rawBody := by
  refine ⟨C8_signature_verifier.1 (fun _ _ => none) "body_A" "00" secretW rfl,
          C8_signature_verifier.2.1 hmacW "body_A" "00" secretW [0] rfl,
          C8_signature_verifier.2.2.1 [0] (by decide),
          C8_signature_verifier.2.2.2 parseW hmacBad "log1" "paymt1" reqW dbW
            "body_A" "00" secretW ?_⟩
  decide

/-! ### Claim C7 — tenant resolution strictly precedes secret lookup -/

/-- C7: the tenant is derived from the intent matching the order reference
in the body; a notification whose order reference resolves to no intent
produces no vault read and no signature verification, and every vault read
and every verification of a resolved notification uses the resolved intent's
own tenant and that tenant's stored webhook secret. -/
theorem C7_tenant_resolution_before_vault (parse : ParseFn)
    (hmacSha256 : HmacFn) (lid pid : String) (req : WebhookRequest) (db : DB)
    (wp : WebhookPayload) (sig : String) (payment : PaymentEntity)
    (hp : parse req.rawBody = some wp)
    (hs : req.signature = some sig)
    (hx : (if wp.event == "payment.captured" then wp.payment else none) =
      some payment) :
    (findIntentByOrder db payment.order_id = none →
      (∀ s k, Event.vaultGet s k ∉
        (handleWebhook parse hmacSha256 lid pid req db).2.2) ∧
      (∀ p s sec, Event.verify p s sec ∉
        (handleWebhook parse hmacSha256 lid pid req db).2.2)) ∧
    (∀ intent, findIntentByOrder db payment.order_id = some intent →
      (∀ s k, Event.vaultGet s k ∈
          (handleWebhook parse hmacSha256 lid pid req db).2.2 →
        s = intent.school_id ∧ k = "razorpay_webhook_secret") ∧
      (∀ p sg sec, Event.verify p sg sec ∈
          (handleWebhook parse hmacSha256 lid pid req db).2.2 →
        get_school_config db intent.school_id "razorpay_webhook_secret" =
          some sec)) := by
  constructor
  · intro hnone
    unfold handleWebhook
    simp only [hp, hs, hx, hnone]
    constructor
    · intro s k
      simp
    · intro p s sec
      simp
  · intro intent hfind
    unfold handleWebhook
    simp only [hp, hs, hx, hfind]
    rcases hsec : get_school_config db intent.school_id
        "razorpay_webhook_secret" with _ | webhookSecret
    · simp only [hsec]
      constructor
      · intro s k hmem
        simp at hmem
        exact ⟨hmem.1, hmem.2⟩
      · intro p sg sec hmem
        simp at hmem
    · simp only [hsec]
      by_cases hv : verifyWebhookSignature hmacSha256 req.rawBody sig
          webhookSecret = false
      · rw [if_pos hv]
        constructor
        · intro s k hmem
          simp at hmem
          exact ⟨hmem.1, hmem.2⟩
        · intro p sg sec hmem
          simp at hmem
          rw [hmem.2.2]
      · rw [if_neg hv]
        rcases hdup : List.find?
            (fun pm => pm.transaction_id == payment.id)
            (insertLog db
              { id := lid, school_id := some intent.school_id,
                webhook_event := wp.event,
                razorpay_signature := some sig,
                signature_valid := some (verifyWebhookSignature
                  hmacSha256 req.rawBody sig webhookSecret),
                processing_status := "received",
                error_message := none }).payments with _ | pm
        · simp only [hdup]
          constructor
          · intro s k hmem
            simp at hmem
            rcases hmem with hmem | hmem
            · exact ⟨hmem.1, hmem.2⟩
            · exact absurd hmem
                ((processCapture_trace_no_vault_no_verify _ _ _ _ _).1 s k)
          · intro p sg sec hmem
            simp at hmem
            rcases hmem with hmem | hmem
            · rw [hmem.2.2]
            · exact absurd hmem
                ((processCapture_trace_no_vault_no_verify _ _ _ _ _).2 p sg
                  sec)
        · simp only [hdup]
          constructor
          · intro s k hmem
            simp at hmem
            exact ⟨hmem.1, hmem.2⟩
          · intro p sg sec hmem
            simp at hmem
            rw [hmem.2.2]

/-- Witness for C7: the unknown-order sample notification triggers no vault
read, and in a resolved sample run every vault read names the resolved
intent's school and the webhook-secret key. -/
theorem C7_tenant_resolution_before_vault_witness :
    (∀ s k, Event.vaultGet s k ∉
      (handleWebhook parseW hmacW "log1" "paymt1" reqN dbW).2.2) ∧
    (∀ s k, Event.vaultGet s k ∈
        (handleWebhook parseW hmacBad "log1" "paymt1" reqW dbW).2.2 →
      s = intentW.school_id ∧ k = "razorpay_webhook_secret") := by
  constructor
  · exact (C7_tenant_resolution_before_vault parseW hmacW "log1" "paymt1"
      reqN dbW { event := "payment.captured",
                 payment := some { id := "pay_N", amount := 100,
                                   order_id := "order_MISSING" } }
      "00" { id := "pay_N", amount := 100, order_id := "order_MISSING" }
      (by decide) (by decide) (by decide)).1 (by decide) |>.1
  · exact ((C7_tenant_resolution_before_vault parseW hmacBad "log1" "paymt1"
      reqW dbW { event := "payment.captured", payment := some payW }
      "00" payW (by decide) (by decide) (by decide)).2 intentW
      (by decide)).1

/-! ### Evaluation lemmas for a successful first delivery and a redelivery -/

theorem handleWebhook_applies (parse : ParseFn) (hmacSha256 : HmacFn)
    (lid pid : String) (req : WebhookRequest) (db : DB)
    (wp : WebhookPayload) (sig : String) (payment : PaymentEntity)
    (intent : PaymentIntent) (sec : List Nat) (fee : StudentFee)
    (hp : parse req.rawBody = some wp)
    (hs : req.signature = some sig)
    (hx : (if wp.event == "payment.captured" then wp.payment else none) =
      some payment)
    (hfind : findIntentByOrder db payment.order_id = some intent)
    (hsec : get_school_config db intent.school_id "razorpay_webhook_secret" =
      some sec)
    (hver : verifyWebhookSignature hmacSha256 req.rawBody sig sec = true)
    (hnodup : db.payments.find?
      (fun pm => pm.transaction_id == payment.id) = none)
    (hint2 : db.payment_intents.find?
      (fun i => i.id == intent.id && i.school_id == intent.school_id) =
      some intent)
    (hint3 : db.payment_intents.find? (fun i => i.id == intent.id) =
      some intent)
    (hfee : db.student_fees.find?
      (fun f => f.id == intent.student_fee_id &&
                f.school_id == intent.school_id) = some fee) :
    handleWebhook parse hmacSha256 lid pid req db =
      ({ student_fees := updateFeeRows db.student_fees intent.student_fee_id
           (fee.amount_paid + jsDiv100 payment.amount)
           (if fee.total_due ≤ fee.amount_paid + jsDiv100 payment.amount
            then "paid"
            else if 0 < fee.amount_paid + jsDiv100 payment.amount
            then "partially_paid" else "unpaid"),
         payment_intents :=
           markIntentPaid db.payment_intents intent.id payment.id,
         payments := db.payments ++
           [{ id := pid, student_fee_id := intent.student_fee_id,
              school_id := intent.school_id, transaction_id := payment.id,
              razorpay_order_id := some intent.razorpay_order_id,
              amount := jsDiv100 payment.amount, payment_method := "Online",
              is_webhook_verified := true }],
         webhook_logs := List.map
           (fun lg => if lg.id == lid
             then { lg with processing_status := "processed" } else lg)
           (db.webhook_logs ++
            [{ id := lid, school_id := some intent.school_id,
               webhook_event := wp.event, razorpay_signature := some sig,
               signature_valid := some true,
               processing_status := "received", error_message := none },
             { id := pid ++ ":log", school_id := some intent.school_id,
               webhook_event := "payment.captured",
               razorpay_signature := none, signature_valid := some true,
               processing_status := "processed", error_message := none }]),
         school_configurations := db.school_configurations },
       .success "Payment processed successfully",
       [.intentLookup payment.order_id,
        .vaultGet intent.school_id "razorpay_webhook_secret",
        .verify req.rawBody sig sec,
        .intentLookup payment.order_id,
        .rpcProcess intent.id payment.id (jsDiv100 payment.amount)
          intent.school_id]) := by
  unfold handleWebhook processCapture process_payment_webhook
  simp only [findIntentByOrder] at hfind
  simp only [findIntentByOrder, insertLog, setLogStatus, hp, hs, hx, hfind,
    hsec, hver]
  simp only [hnodup, hint2, hint3, hfee]
  simp

theorem find?_markIntentPaid (il : List PaymentIntent) (iid ref : String)
    (p : PaymentIntent → Bool)
    (hp : ∀ i, p { i with status := "paid", razorpay_payment_id := some ref, webhook_verified := true } = p i) :
    (markIntentPaid il iid ref).find? p =
      (il.find? p).map (fun i => if i.id == iid then { i with status := "paid", razorpay_payment_id := some ref, webhook_verified := true } else i) := by
  unfold markIntentPaid
  rw [List.find?_map]
  have hcomp : (p ∘ fun i => if i.id == iid then { i with status := "paid", razorpay_payment_id := some ref, webhook_verified := true } else i) = p := by
    funext i
    simp only [Function.comp_apply]
    by_cases h : i.id == iid
    · rw [if_pos h, hp]
    · rw [if_neg h]
  rw [hcomp]

theorem get_school_config_eq_of_configs (d db : DB)
    (hc : d.school_configurations = db.school_configurations)
    (sid key : String) :
    get_school_config d sid key = get_school_config db sid key := by
  unfold get_school_config
  rw [hc]

theorem handleWebhook_duplicate (parse : ParseFn) (hmacSha256 : HmacFn)
    (lid pid : String) (req : WebhookRequest) (db : DB)
    (wp : WebhookPayload) (sig : String) (payment : PaymentEntity)
    (intent : PaymentIntent) (sec : List Nat) (pm : Payment)
    (hp : parse req.rawBody = some wp)
    (hs : req.signature = some sig)
    (hx : (if wp.event == "payment.captured" then wp.payment else none) =
      some payment)
    (hfind : findIntentByOrder db payment.order_id = some intent)
    (hsec : get_school_config db intent.school_id "razorpay_webhook_secret" =
      some sec)
    (hver : verifyWebhookSignature hmacSha256 req.rawBody sig sec = true)
    (hdup : db.payments.find?
      (fun q => q.transaction_id == payment.id) = some pm) :
    handleWebhook parse hmacSha256 lid pid req db =
      ({ db with webhook_logs := List.map
                   (fun lg => if lg.id == lid
                     then { lg with processing_status := "processed" }
                     else lg)
                   (db.webhook_logs ++
                    [{ id := lid, school_id := some intent.school_id,
                       webhook_event := wp.event,
                       razorpay_signature := some sig,
                       signature_valid := some true,
                       processing_status := "received",
                       error_message := none }]) },
       .success "Payment already processed",
       [.intentLookup payment.order_id,
        .vaultGet intent.school_id "razorpay_webhook_secret",
        .verify req.rawBody sig sec]) := by
  unfold handleWebhook
  simp only [insertLog, setLogStatus, hp, hs, hx, hfind, hsec, hver]
  simp only [hdup]
  simp

/-! ### Claim C1 — exactly-once application under redelivery -/

/-- C1: for every sequence of `n ≥ 1` sequential deliveries of the same
capture notification (same gateway transaction id), exactly one
`payments` row with that transaction id exists afterwards, the fee's
`amount_paid` is increased by the converted captured amount exactly once,
and every delivery after the first receives the DUPLICATE success response
and leaves the payments and fee tables unchanged. -/
theorem C1_exactly_once_under_redelivery (parse : ParseFn)
    (hmacSha256 : HmacFn) (ids : Nat → String × String)
    (req : WebhookRequest) (db : DB) (wp : WebhookPayload) (sig : String)
    (payment : PaymentEntity) (intent : PaymentIntent) (sec : List Nat)
    (fee : StudentFee)
    (hp : parse req.rawBody = some wp)
    (hs : req.signature = some sig)
    (hx : (if wp.event == "payment.captured" then wp.payment else none) =
      some payment)
    (hfind : findIntentByOrder db payment.order_id = some intent)
    (hsec : get_school_config db intent.school_id "razorpay_webhook_secret" =
      some sec)
    (hver : verifyWebhookSignature hmacSha256 req.rawBody sig sec = true)
    (hnodup : db.payments.find?
      (fun q => q.transaction_id == payment.id) = none)
    (hint2 : db.payment_intents.find?
      (fun i => i.id == intent.id && i.school_id == intent.school_id) =
      some intent)
    (hint3 : db.payment_intents.find? (fun i => i.id == intent.id) =
      some intent)
    (hfee : db.student_fees.find?
      (fun f => f.id == intent.student_fee_id &&
                f.school_id == intent.school_id) = some fee)
    (n : Nat) (hn : 1 ≤ n) :
    (deliverN parse hmacSha256 ids req db n).payments.countP
        (fun q => q.transaction_id == payment.id) = 1 ∧
    (deliverN parse hmacSha256 ids req db n).student_fees =
      updateFeeRows db.student_fees intent.student_fee_id
        (fee.amount_paid + jsDiv100 payment.amount)
        (if fee.total_due ≤ fee.amount_paid + jsDiv100 payment.amount
         then "paid"
         else if 0 < fee.amount_paid + jsDiv100 payment.amount
         then "partially_paid" else "unpaid") ∧
    deliveryResponse parse hmacSha256 ids req db 0 =
      .success "Payment processed successfully" ∧
    (∀ k, 1 ≤ k → k < n →
      deliveryResponse parse hmacSha256 ids req db k =
        .success "Payment already processed" ∧
      (deliverN parse hmacSha256 ids req db (k + 1)).student_fees =
        (deliverN parse hmacSha256 ids req db k).student_fees ∧
      (deliverN parse hmacSha256 ids req db (k + 1)).payments =
        (deliverN parse hmacSha256 ids req db k).payments) := by
  set pm0 : Payment :=
    { id := (ids 0).2, student_fee_id := intent.student_fee_id,
      school_id := intent.school_id, transaction_id := payment.id,
      razorpay_order_id := some intent.razorpay_order_id,
      amount := jsDiv100 payment.amount, payment_method := "Online",
      is_webhook_verified := true } with hpm0
  have h1 := handleWebhook_applies parse hmacSha256 (ids 0).1 (ids 0).2 req
    db wp sig payment intent sec fee hp hs hx hfind hsec hver hnodup hint2
    hint3 hfee
  set intentPaid : PaymentIntent := { intent with status := "paid", razorpay_payment_id := some payment.id, webhook_verified := true } with hintPaid
  have hstep : ∀ (d : DB) (lid pid : String),
      d.payments = db.payments ++ [pm0] →
      d.payment_intents =
        markIntentPaid db.payment_intents intent.id payment.id →
      d.school_configurations = db.school_configurations →
      (handleWebhook parse hmacSha256 lid pid req d).2.1 =
        .success "Payment already processed" ∧
      (handleWebhook parse hmacSha256 lid pid req d).1.payments =
        d.payments ∧
      (handleWebhook parse hmacSha256 lid pid req d).1.student_fees =
        d.student_fees ∧
      (handleWebhook parse hmacSha256 lid pid req d).1.payment_intents =
        d.payment_intents ∧
      (handleWebhook parse hmacSha256 lid pid req d).1.school_configurations
        = d.school_configurations := by
    intro d lid pid hpay hints hconf
    have hfind_d : findIntentByOrder d payment.order_id = some intentPaid
        := by
      unfold findIntentByOrder
      rw [hints]
      rw [find?_markIntentPaid db.payment_intents intent.id payment.id
        (fun i => i.razorpay_order_id == payment.order_id) (fun i => rfl)]
      unfold findIntentByOrder at hfind
      rw [hfind]
      simp [hintPaid]
    have hsec_d : get_school_config d intentPaid.school_id
        "razorpay_webhook_secret" = some sec := by
      rw [get_school_config_eq_of_configs d db hconf]
      exact hsec
    have hdup_d : d.payments.find?
        (fun q => q.transaction_id == payment.id) = some pm0 := by
      rw [hpay, List.find?_append, hnodup]
      simp [hpm0]
    have hd := handleWebhook_duplicate parse hmacSha256 lid pid req d wp sig
      payment intentPaid sec pm0 hp hs hx hfind_d hsec_d hver hdup_d
    rw [hd]
    exact ⟨rfl, rfl, rfl, rfl, rfl⟩
  have hInv : ∀ k, 1 ≤ k →
      (deliverN parse hmacSha256 ids req db k).payments =
        db.payments ++ [pm0] ∧
      (deliverN parse hmacSha256 ids req db k).student_fees =
        updateFeeRows db.student_fees intent.student_fee_id
          (fee.amount_paid + jsDiv100 payment.amount)
          (if fee.total_due ≤ fee.amount_paid + jsDiv100 payment.amount
           then "paid"
           else if 0 < fee.amount_paid + jsDiv100 payment.amount
           then "partially_paid" else "unpaid") ∧
      (deliverN parse hmacSha256 ids req db k).payment_intents =
        markIntentPaid db.payment_intents intent.id payment.id ∧
      (deliverN parse hmacSha256 ids req db k).school_configurations =
        db.school_configurations := by
    intro k hk
    induction k with
    | zero => omega
    | succ k ih =>
        by_cases hk0 : k = 0
        · subst hk0
          show _ ∧ _ ∧ _ ∧ _
          have hdel : deliverN parse hmacSha256 ids req db 1 =
              (handleWebhook parse hmacSha256 (ids 0).1 (ids 0).2 req db).1
              := rfl
          rw [hdel, h1]
          exact ⟨rfl, rfl, rfl, rfl⟩
        · have hk1 : 1 ≤ k := by omega
          obtain ⟨hP1, hP2, hP3, hP4⟩ := ih hk1
          have hs2 := hstep (deliverN parse hmacSha256 ids req db k)
            (ids k).1 (ids k).2 hP1 hP3 hP4
          have hdel : deliverN parse hmacSha256 ids req db (k + 1) =
              (handleWebhook parse hmacSha256 (ids k).1 (ids k).2 req
                (deliverN parse hmacSha256 ids req db k)).1 := rfl
          refine ⟨?_, ?_, ?_, ?_⟩
          · rw [hdel, hs2.2.1, hP1]
          · rw [hdel, hs2.2.2.1, hP2]
          · rw [hdel, hs2.2.2.2.1, hP3]
          · rw [hdel, hs2.2.2.2.2, hP4]
  obtain ⟨hN1, hN2, hN3, hN4⟩ := hInv n hn
  refine ⟨?_, hN2, ?_, ?_⟩
  · rw [hN1, List.countP_append]
    have hz : db.payments.countP
        (fun q => q.transaction_id == payment.id) = 0 :=
      List.countP_eq_zero.mpr (List.find?_eq_none.mp hnodup)
    rw [hz]
    simp [hpm0]
  · show (handleWebhook parse hmacSha256 (ids 0).1 (ids 0).2 req
      (deliverN parse hmacSha256 ids req db 0)).2.1 = _
    have hdel0 : deliverN parse hmacSha256 ids req db 0 = db := rfl
    rw [hdel0, h1]
  · intro k hk1 hkn
    obtain ⟨hP1, hP2, hP3, hP4⟩ := hInv k hk1
    have hs2 := hstep (deliverN parse hmacSha256 ids req db k)
      (ids k).1 (ids k).2 hP1 hP3 hP4
    have hdel : deliverN parse hmacSha256 ids req db (k + 1) =
        (handleWebhook parse hmacSha256 (ids k).1 (ids k).2 req
          (deliverN parse hmacSha256 ids req db k)).1 := rfl
    exact ⟨hs2.1, by rw [hdel, hs2.2.2.1], by rw [hdel, hs2.2.1]⟩

/-- Witness for C1: two deliveries of the sample capture notification leave
exactly one payment row for `pay_A`; the first responds APPLIED, the second
DUPLICATE. -/
theorem C1_exactly_once_under_redelivery_witness :
    (deliverN parseW hmacW (fun _ => ("logA", "payrecA")) reqW dbW
        2).payments.countP (fun q => q.transaction_id == payW.id) = 1 ∧
    deliveryResponse parseW hmacW (fun _ => ("logA", "payrecA")) reqW dbW 0 =
      .success "Payment processed successfully" ∧
    deliveryResponse parseW hmacW (fun _ => ("logA", "payrecA")) reqW dbW 1 =
      .success "Payment already processed" := by
  have h := C1_exactly_once_under_redelivery parseW hmacW
    (fun _ => ("logA", "payrecA")) reqW dbW
    { event := "payment.captured", payment := some payW } "00" payW intentW
    secretW feeW (by decide) (by decide) (by decide) (by decide) (by decide)
    (by decide) (by decide) (by decide) (by decide) (by decide) 2
    (by norm_num)
  exact ⟨h.1, h.2.2.1, (h.2.2.2 1 (by norm_num) (by norm_num)).1⟩

/-! ### Claim C3 — webhook path versus direct verification path -/

/-- C3 counterexample: on the same initial store and the same capture, the
webhook path updates the fee ledger while the direct path leaves the store
untouched and fails (its signature helper `verifyRazorpaySignature` is
defined nowhere in the module), so the two paths do not produce identical
ledger state. -/
theorem C3_pipelines_differ_counterexample :
    (handleWebhook parseW hmacW "logA" "payrecA" reqW dbW).1.student_fees =
      [{ id := "fee1", school_id := "school1", total_due := 82000,
         amount_paid := 40000, status := "partially_paid" }] ∧
    (handleDirectVerification
      { razorpayOrderId := some "order_A", razorpayPaymentId := some "pay_A",
        razorpaySignature := some "00" } dbW).1 = dbW ∧
    (handleDirectVerification
      { razorpayOrderId := some "order_A", razorpayPaymentId := some "pay_A",
        razorpaySignature := some "00" } dbW).2 =
      .failure
        "Payment verification failed: verifyRazorpaySignature is not defined"
        500 ∧
    (handleWebhook parseW hmacW "logA" "payrecA" reqW dbW).1.student_fees ≠
      (handleDirectVerification
        { razorpayOrderId := some "order_A",
          razorpayPaymentId := some "pay_A",
          razorpaySignature := some "00" } dbW).1.student_fees := by
  have h1 := handleWebhook_applies parseW hmacW "logA" "payrecA" reqW dbW
    { event := "payment.captured", payment := some payW } "00" payW intentW
    secretW feeW (by decide) (by decide) (by decide) (by decide) (by decide)
    (by decide) (by decide) (by decide) (by decide) (by decide)
  have hval : (handleWebhook parseW hmacW "logA" "payrecA" reqW
      dbW).1.student_fees =
      [{ id := "fee1", school_id := "school1", total_due := 82000,
         amount_paid := 40000, status := "partially_paid" }] := by
    simp only [h1]
    norm_num [dbW, feeW, intentW, payW, updateFeeRows, jsDiv100_scenario]
  refine ⟨hval, by decide, by decide, ?_⟩
  rw [hval]
  decide

/-- C3 (amended): the direct verification path does not apply the webhook
pipeline at all — as shipped it never mutates the store and never returns a
success response, because after resolving the intent and reading the raw
`razorpay_key_secret` row it calls the undefined `verifyRazorpaySignature`
and the catch block turns the `ReferenceError` into an error response. -/
theorem C3_direct_path_never_applies (req : VerifyPaymentRequest) (db : DB) :
    (handleDirectVerification req db).1 = db ∧
    ∀ m, (handleDirectVerification req db).2 ≠ HttpResponse.success m := by
  unfold handleDirectVerification
  rcases req with ⟨o, pid2, sg2⟩
  rcases o with _ | orderId
  · simp
  · rcases pid2 with _ | pid3
    · simp
    · rcases sg2 with _ | sg3
      · simp
      · rcases hfind : findIntentByOrder db orderId with _ | intentData
        · simp [hfind]
        · rcases hcfg : (db.school_configurations.filter
              (fun sc => sc.school_id == intentData.school_id)).find?
              (fun c => c.config_key == "razorpay_key_secret") with _ | cfg
          · simp [hfind, hcfg]
          · simp [hfind, hcfg]

/-- Equality of `Except` results is decidable componentwise. -/
instance {e a : Type} [DecidableEq e] [DecidableEq a] :
    DecidableEq (Except e a) := fun x y =>
  match x, y with
  | .error e1, .error e2 =>
      if h : e1 = e2 then isTrue (by rw [h]) else isFalse (by simp [h])
  | .error _, .ok _ => isFalse (by simp)
  | .ok _, .error _ => isFalse (by simp)
  | .ok v1, .ok v2 =>
      if h : v1 = v2 then isTrue (by rw [h]) else isFalse (by simp [h])

/-! ### Claim C2 — duplicate race between lookup and insert -/

/-- The `received` log row the racing delivery B inserts before its
idempotency lookup. -/
def lgB : WebhookLog :=
  { id := "logB", school_id := some "school1",
    webhook_event := "payment.captured", razorpay_signature := some "00",
    signature_valid := some true, processing_status := "received",
    error_message := none }

/-- C2 counterexample: two deliveries race — B's idempotency lookup on the
pre-insert store misses, A applies and commits, and B's continuation then
hits the duplicate inside the atomic unit.  The code raises
`Payment already processed`, and the handler answers with the FAILED 500
response, not the DUPLICATE success the claim demands. -/
theorem C2_race_yields_failed_counterexample :
    dbW.payments.find? (fun q => q.transaction_id == payW.id) = none ∧
    (handleWebhook parseW hmacW "logA" "payrecA" reqW dbW).2.1 =
      .success "Payment processed successfully" ∧
    process_payment_webhook
      (insertLog (handleWebhook parseW hmacW "logA" "payrecA" reqW dbW).1
        lgB) "payrecB" "intent1" "pay_A" (jsDiv100 payW.amount) "school1" =
      .error "Payment already processed: pay_A" ∧
    (processCapture "payrecB" "logB" payW "school1"
      (insertLog (handleWebhook parseW hmacW "logA" "payrecA" reqW dbW).1
        lgB)).2.1 = .failure "Payment processing failed" 500 ∧
    (processCapture "payrecB" "logB" payW "school1"
      (insertLog (handleWebhook parseW hmacW "logA" "payrecA" reqW dbW).1
        lgB)).2.1 ≠ .success "Payment already processed" := by
  decide

/-- C2 (amended): when the store already holds a `payments` row for the
transaction id by the time the atomic unit runs while the step-5 lookup had
missed, the notification's outcome is FAILED: the stored procedure raises
`Payment already processed`, the handler marks the log entry failed and
returns the 500 error response, leaving the ledger unchanged; the DUPLICATE
success is produced only when the step-5 lookup itself finds the row, as on
the gateway's subsequent redelivery. -/
theorem C2_race_duplicate_insert_fails (newPid logId : String)
    (payment : PaymentEntity) (sch : String) (db : DB)
    (fi : PaymentIntent) (pm : Payment)
    (hfi : findIntentByOrder db payment.order_id = some fi)
    (hfi2 : db.payment_intents.find?
      (fun i => i.id == fi.id && i.school_id == sch) = some fi)
    (hdup : db.payments.find?
      (fun q => q.transaction_id == payment.id) = some pm) :
    processCapture newPid logId payment sch db =
      (setLogFailure db logId
        ("Transaction failed: " ++ ("Payment already processed: " ++
          payment.id)),
       .failure "Payment processing failed" 500,
       [.intentLookup payment.order_id,
        .rpcProcess fi.id payment.id (jsDiv100 payment.amount) sch]) ∧
    (setLogFailure db logId
      ("Transaction failed: " ++ ("Payment already processed: " ++
        payment.id))).payments = db.payments ∧
    (setLogFailure db logId
      ("Transaction failed: " ++ ("Payment already processed: " ++
        payment.id))).student_fees = db.student_fees ∧
    (setLogFailure db logId
      ("Transaction failed: " ++ ("Payment already processed: " ++
        payment.id))).payment_intents = db.payment_intents := by
  unfold processCapture process_payment_webhook
  simp only [hfi, hfi2, hdup]
  exact ⟨trivial, rfl, rfl, rfl⟩

/-- Witness for the amended C2 at the concrete race state. -/
theorem C2_race_duplicate_insert_fails_witness :
    (processCapture "payrecB" "logB" payW "school1"
      (insertLog (handleWebhook parseW hmacW "logA" "payrecA" reqW dbW).1
        lgB)).2.1 = .failure "Payment processing failed" 500 := by
  have h1 := handleWebhook_applies parseW hmacW "logA" "payrecA" reqW dbW
    { event := "payment.captured", payment := some payW } "00" payW intentW
    secretW feeW (by decide) (by decide) (by decide) (by decide) (by decide)
    (by decide) (by decide) (by decide) (by decide) (by decide)
  have hdup : (insertLog (handleWebhook parseW hmacW "logA" "payrecA" reqW
      dbW).1 lgB).payments.find?
      (fun q => q.transaction_id == payW.id) = some
      { id := "payrecA", student_fee_id := intentW.student_fee_id,
        school_id := intentW.school_id, transaction_id := payW.id,
        razorpay_order_id := some intentW.razorpay_order_id,
        amount := jsDiv100 payW.amount, payment_method := "Online",
        is_webhook_verified := true } := by
    simp only [h1, insertLog]
    simp [dbW, intentW, payW]
  have h2 := C2_race_duplicate_insert_fails "payrecB" "logB" payW "school1"
    (insertLog (handleWebhook parseW hmacW "logA" "payrecA" reqW dbW).1 lgB)
    { intentW with status := "paid", razorpay_payment_id := some "pay_A", webhook_verified := true }
    { id := "payrecA", student_fee_id := intentW.student_fee_id,
      school_id := intentW.school_id, transaction_id := payW.id,
      razorpay_order_id := some intentW.razorpay_order_id,
      amount := jsDiv100 payW.amount, payment_method := "Online",
      is_webhook_verified := true }
    (by simp only [h1, insertLog]
        unfold findIntentByOrder
        simp [dbW, markIntentPaid, intentW, payW])
    (by simp only [h1, insertLog]
        simp [dbW, markIntentPaid, intentW, payW])
    hdup
  rw [h2.1]

/-! ### Claim C4 — the atomic apply is all-or-nothing -/

/-- C4: a successful run of the atomic stored procedure performs the
PaymentRecord insert, the FeeRecord update, the intent transition and the
processed audit entry together in its single transaction; when the
procedure raises instead, its transaction leaves the store untouched (the
`Except` result carries no state) and the handler writes the FAILED audit
entry with the error detail through its own separate call, which the
rollback cannot undo — the ledger tables are exactly the pre-call ones. -/
theorem C4_atomic_apply_all_or_nothing :
    (∀ (db : DB) (newPid iid txn : String) (a : ℚ) (sch : String)
      (db' : DB) (pid : String),
      process_payment_webhook db newPid iid txn a sch = .ok (db', pid) →
      ∃ intent fee,
        db.payment_intents.find?
          (fun i => i.id == iid && i.school_id == sch) = some intent ∧
        db.student_fees.find?
          (fun f => f.id == intent.student_fee_id && f.school_id == sch) =
          some fee ∧
        db'.payments = db.payments ++
          [{ id := newPid, student_fee_id := intent.student_fee_id,
             school_id := sch, transaction_id := txn,
             razorpay_order_id := (db.payment_intents.find?
               (fun i => i.id == iid)).map (fun i => i.razorpay_order_id),
             amount := a, payment_method := "Online",
             is_webhook_verified := true }] ∧
        db'.student_fees = updateFeeRows db.student_fees
          intent.student_fee_id (fee.amount_paid + a)
          (if fee.total_due ≤ fee.amount_paid + a then "paid"
           else if 0 < fee.amount_paid + a then "partially_paid"
           else "unpaid") ∧
        db'.payment_intents = markIntentPaid db.payment_intents iid txn ∧
        (∃ lg, db'.webhook_logs = db.webhook_logs ++ [lg] ∧
          lg.processing_status = "processed")) ∧
    (∀ (newPid logId : String) (payment : PaymentEntity) (sch msg : String)
      (db : DB) (fi : PaymentIntent),
      findIntentByOrder db payment.order_id = some fi →
      process_payment_webhook db newPid fi.id payment.id
        (jsDiv100 payment.amount) sch = .error msg →
      processCapture newPid logId payment sch db =
        (setLogFailure db logId ("Transaction failed: " ++ msg),
         .failure "Payment processing failed" 500,
         [.intentLookup payment.order_id,
          .rpcProcess fi.id payment.id (jsDiv100 payment.amount) sch]) ∧
      (setLogFailure db logId ("Transaction failed: " ++ msg)).payments =
        db.payments ∧
      (setLogFailure db logId
        ("Transaction failed: " ++ msg)).student_fees = db.student_fees ∧
      (setLogFailure db logId
        ("Transaction failed: " ++ msg)).payment_intents =
        db.payment_intents ∧
      (∀ lg ∈ db.webhook_logs, lg.id = logId →
        { lg with processing_status := "failed", error_message := some ("Transaction failed: " ++ msg) } ∈
          (setLogFailure db logId
            ("Transaction failed: " ++ msg)).webhook_logs)) := by
  constructor
  · intro db newPid iid txn a sch db' pid h
    unfold process_payment_webhook at h
    rcases hint : db.payment_intents.find?
        (fun i => i.id == iid && i.school_id == sch) with _ | intent
    · rw [hint] at h
      simp at h
    · simp only [hint] at h
      rcases hdup : db.payments.find?
          (fun pm => pm.transaction_id == txn) with _ | pm
      · simp only [hdup] at h
        rcases hfee : db.student_fees.find?
            (fun f => f.id == intent.student_fee_id &&
                      f.school_id == sch) with _ | fee
        · simp only [hfee] at h
          simp at h
        · simp only [hfee] at h
          simp only [Except.ok.injEq, Prod.mk.injEq] at h
          obtain ⟨hdb, hpid⟩ := h
          refine ⟨intent, fee, hint, hfee, ?_, ?_, ?_, ?_⟩
          · rw [← hdb]
          · rw [← hdb]
          · rw [← hdb]
          · exact ⟨_, by rw [← hdb], rfl⟩
      · rw [hdup] at h
        simp at h
  · intro newPid logId payment sch msg db fi hfi herr
    unfold processCapture
    simp only [hfi, herr]
    refine ⟨trivial, rfl, rfl, rfl, ?_⟩
    intro lg hmem hid
    unfold setLogFailure
    have hm := List.mem_map_of_mem (fun x : WebhookLog =>
      if x.id == logId
      then { x with processing_status := "failed", error_message := some ("Transaction failed: " ++ msg) }
      else x) hmem
    simpa [hid] using hm

/-- Witness for C4: the sample apply performs all four writes together, and
an apply that raises (missing fee row) leaves the handler responding with
the FAILED 500 outcome. -/
theorem C4_atomic_apply_all_or_nothing_witness :
    (∃ db' pid,
      process_payment_webhook dbW "payrecA" "intent1" "pay_A" 40000
        "school1" = .ok (db', pid) ∧
      (∃ pm, db'.payments = dbW.payments ++ [pm] ∧
        pm.transaction_id = "pay_A") ∧
      db'.payment_intents =
        markIntentPaid dbW.payment_intents "intent1" "pay_A" ∧
      (∃ lg, db'.webhook_logs = dbW.webhook_logs ++ [lg] ∧
        lg.processing_status = "processed")) ∧
    (processCapture "payrecB" "logB" payW "school1"
      { dbW with student_fees := [] }).2.1 =
      .failure "Payment processing failed" 500 := by
  constructor
  · obtain ⟨db', pid, h⟩ : ∃ db' pid,
        process_payment_webhook dbW "payrecA" "intent1" "pay_A" 40000
          "school1" = .ok (db', pid) := ⟨_, _, rfl⟩
    obtain ⟨intent, fee, hint, hfee, hpm, hfees, hintents, lg, hlg, hlgst⟩ :=
      C4_atomic_apply_all_or_nothing.1 dbW "payrecA" "intent1" "pay_A" 40000
        "school1" db' pid h
    exact ⟨db', pid, h, ⟨_, hpm, rfl⟩, hintents, ⟨lg, hlg, hlgst⟩⟩
  · have h2 := (C4_atomic_apply_all_or_nothing.2 "payrecB" "logB" payW
      "school1" "Student fee not found or access denied"
      { dbW with student_fees := [] } intentW (by decide) (by decide)).1
    rw [h2]

/-! ### Claim C5 — which notifications get a WebhookLogEntry -/

/-- C5 counterexample: a notification with no extractable order reference
and a notification whose order reference resolves to no intent are both
answered with an error response while the `webhook_logs` table — empty
before — stays empty: no WebhookLogEntry is created for them. -/
theorem C5_early_failures_unlogged_counterexample :
    handleWebhook parseW hmacW "log1" "paymt1" reqM dbW =
      (dbW, .failure "Invalid webhook payload" 400, []) ∧
    handleWebhook parseW hmacW "log1" "paymt1" reqN dbW =
      (dbW, .failure "Payment intent not found" 400,
       [.intentLookup "order_MISSING"]) ∧
    dbW.webhook_logs = [] := by
  refine ⟨by decide, by decide, by decide⟩

/-- C5 (amended): a WebhookLogEntry is created only once the intent has
been resolved and the secret lookup attempted: malformed notifications and
notifications whose order reference resolves to no intent are answered with
an error response and no log entry, while a resolved notification whose
tenant lacks a webhook secret does get a FAILED log entry before the
handler responds. -/
theorem C5_logging_starts_after_tenant_resolution (parse : ParseFn)
    (hmacSha256 : HmacFn) (lid pid : String) (req : WebhookRequest)
    (db : DB) (wp : WebhookPayload) (sig : String) :
    (parse req.rawBody = some wp → req.signature = some sig →
      (if wp.event == "payment.captured" then wp.payment else none) = none →
      handleWebhook parse hmacSha256 lid pid req db =
        (db, .failure "Invalid webhook payload" 400, [])) ∧
    (∀ payment : PaymentEntity, parse req.rawBody = some wp →
      req.signature = some sig →
      (if wp.event == "payment.captured" then wp.payment else none) =
        some payment →
      findIntentByOrder db payment.order_id = none →
      handleWebhook parse hmacSha256 lid pid req db =
        (db, .failure "Payment intent not found" 400,
         [.intentLookup payment.order_id])) ∧
    (∀ (payment : PaymentEntity) (intent : PaymentIntent),
      parse req.rawBody = some wp → req.signature = some sig →
      (if wp.event == "payment.captured" then wp.payment else none) =
        some payment →
      findIntentByOrder db payment.order_id = some intent →
      get_school_config db intent.school_id "razorpay_webhook_secret" =
        none →
      handleWebhook parse hmacSha256 lid pid req db =
        (insertLog db
          { id := lid, school_id := some intent.school_id,
            webhook_event := wp.event, razorpay_signature := some sig,
            signature_valid := some false, processing_status := "failed",
            error_message := some "Webhook secret not found" },
         .failure "Webhook secret configuration error" 500,
         [.intentLookup payment.order_id,
          .vaultGet intent.school_id "razorpay_webhook_secret"])) := by
  refine ⟨?_, ?_, ?_⟩
  · intro hp hs hx
    unfold handleWebhook
    simp only [hp, hs, hx]
  · intro payment hp hs hx hfind
    unfold handleWebhook
    simp only [hp, hs, hx, hfind]
  · intro payment intent hp hs hx hfind hsec
    unfold handleWebhook
    simp only [hp, hs, hx, hfind, hsec]

/-- Witness for the amended C5 on the three sample notifications. -/
theorem C5_logging_starts_after_tenant_resolution_witness :
    handleWebhook parseW hmacW "log1" "paymt1" reqM dbW =
      (dbW, .failure "Invalid webhook payload" 400, []) ∧
    handleWebhook parseW hmacW "log1" "paymt1" reqN dbW =
      (dbW, .failure "Payment intent not found" 400,
       [.intentLookup "order_MISSING"]) ∧
    handleWebhook parseW hmacW "log1" "paymt1" reqW
      { dbW with school_configurations := [] } =
      (insertLog { dbW with school_configurations := [] }
        { id := "log1", school_id := some "school1",
          webhook_event := "payment.captured",
          razorpay_signature := some "00", signature_valid := some false,
          processing_status := "failed",
          error_message := some "Webhook secret not found" },
       .failure "Webhook secret configuration error" 500,
       [.intentLookup "order_A",
        .vaultGet "school1" "razorpay_webhook_secret"]) := by
  refine ⟨?_, ?_, ?_⟩
  · exact (C5_logging_starts_after_tenant_resolution parseW hmacW "log1"
      "paymt1" reqM dbW { event := "payment.failed", payment := none }
      "00").1 (by decide) (by decide) (by decide)
  · exact (C5_logging_starts_after_tenant_resolution parseW hmacW "log1"
      "paymt1" reqN dbW
      { event := "payment.captured",
        payment := some { id := "pay_N", amount := 100,
                          order_id := "order_MISSING" } } "00").2.1
      { id := "pay_N", amount := 100, order_id := "order_MISSING" }
      (by decide) (by decide) (by decide) (by decide)
  · exact (C5_logging_starts_after_tenant_resolution parseW hmacW "log1"
      "paymt1" reqW { dbW with school_configurations := [] }
      { event := "payment.captured", payment := some payW } "00").2.2
      payW intentW (by decide) (by decide) (by decide) (by decide)
      (by decide)
